import Mathlib

/-
  Verification of the DevStack Architect document-ingestion and stack-driven
  generation pipeline.

  The definitions below are a shallow embedding of:
    - `parseLegacyContent`            (src/App.tsx, lines 14-44)
    - `handleFileUpload`              (src/App.tsx, lines 64-184): the reset
      block and the three per-format load continuations (PDF, DOCX, text)
    - the `runAnalysis` effect guard  (src/App.tsx, lines 187-209)
    - `handleGenerateCode`            (src/App.tsx, lines 211-224)
    - `generateCodeScaffold` response handling (src/services/geminiService.ts,
      lines 188-200)
    - the `allFiles` / `fileTree` computation of `CodePreview`
      (src/components/CodePreview.tsx, lines 29-62)

  JavaScript strings are modelled as `List Char`; the subset of JS regular
  expressions the source uses (leftmost match, lazy `[\s\S]*?`, greedy `\s*`
  and `[^"]+`) is implemented directly by scanning functions.  `\s` and
  `String.prototype.trim` are modelled over their ASCII whitespace subset,
  which covers every character class the pipeline's inputs use.
-/

namespace DevStack

/-- ASCII subset of the JavaScript whitespace class used by `trim` and
regex `\s`. -/
def isJsSpace (c : Char) : Bool :=
  c = ' ' || c = '\t' || c = '\n' || c = '\r' || c = '\x0b' || c = '\x0c'

/-- Model of `String.prototype.trim`: strip whitespace from both ends. -/
def jsTrim (l : List Char) : List Char :=
  ((l.dropWhile isJsSpace).reverse.dropWhile isJsSpace).reverse

/-- Index of the first occurrence of `pat` as a contiguous sublist, if any
(model of `String.prototype.indexOf`). -/
def findSub (pat : List Char) : List Char → Option Nat
  | [] => if pat.isEmpty then some 0 else none
  | c :: rest =>
    if pat.isPrefixOf (c :: rest) then some 0
    else (findSub pat rest).map (· + 1)

/-- Model of `String.prototype.replace` with a plain-string pattern and the
empty replacement: remove the first occurrence of `pat`. -/
def removeFirst (pat : List Char) : List Char → List Char
  | [] => []
  | c :: rest =>
    if pat.isPrefixOf (c :: rest) then (c :: rest).drop pat.length
    else c :: removeFirst pat rest

/-- The literal delimiter `parseLegacyContent` splits on
(src/App.tsx line 15). -/
def DELIM : List Char := "--- START OF FILE text/plain ---".toList

/-- Worker for the split: `acc` is the current segment reversed, `skip` is
the number of already-matched delimiter characters still to consume
(structurally recursive model of `text.split(DELIM)`). -/
def splitDelimAux : List Char → List Char → Nat → List (List Char)
  | [], acc, _ => [acc.reverse]
  | _ :: rest, acc, skip + 1 => splitDelimAux rest acc skip
  | c :: rest, acc, 0 =>
    if DELIM.isPrefixOf (c :: rest) then
      acc.reverse :: splitDelimAux rest [] (DELIM.length - 1)
    else
      splitDelimAux rest (c :: acc) 0

/-- Model of the split of the input on the literal DELIM
(src/App.tsx line 15): non-overlapping, left-to-right. -/
def splitSegments (text : List Char) : List (List Char) :=
  splitDelimAux text [] 0

/-- Opening token of the front-matter regex `/---\n([\s\S]*?)\n---/`. -/
def FM_OPEN : List Char := "---\n".toList

/-- Closing token of the front-matter regex. -/
def FM_CLOSE : List Char := "\n---".toList

/-- Attempt of the front-matter regex anchored at the current position:
succeeds iff the text starts with `---\n` and `\n---` occurs later; the lazy
group takes the shortest completion.  Returns (whole match, group 1). -/
def fmMatchHere (l : List Char) : Option (List Char × List Char) :=
  if FM_OPEN.isPrefixOf l then
    match findSub FM_CLOSE (l.drop FM_OPEN.length) with
    | some i =>
      let g := (l.drop FM_OPEN.length).take i
      some (FM_OPEN ++ g ++ FM_CLOSE, g)
    | none => none
  else none

/-- Model of `part.match(/---\n([\s\S]*?)\n---/)` (src/App.tsx line 22):
leftmost match, lazy body. -/
def frontMatterMatch : List Char → Option (List Char × List Char)
  | [] => fmMatchHere []
  | c :: rest =>
    match fmMatchHere (c :: rest) with
    | some r => some r
    | none => frontMatterMatch rest

/-- The greedy part `([^"]+)"` of a field regex, applied to the characters
after the opening quote: the maximal run of non-quote characters, accepted
when it is non-empty and a closing quote follows. -/
def quotedGroup (afterQuote : List Char) : Option (List Char) :=
  if (afterQuote.takeWhile (fun c => c ≠ '"')).isEmpty then none
  else
    match afterQuote.drop (afterQuote.takeWhile (fun c => c ≠ '"')).length with
    | '"' :: _ => some (afterQuote.takeWhile (fun c => c ≠ '"'))
    | _ => none

/-- Attempt of a field regex `key:\s*"([^"]+)"` anchored at the current
position: literal key, greedy whitespace, then a non-empty quoted group. -/
def keyQuotedHere (key : List Char) (l : List Char) : Option (List Char) :=
  if key.isPrefixOf l then
    match (l.drop key.length).dropWhile isJsSpace with
    | '"' :: afterQuote => quotedGroup afterQuote
    | _ => none
  else none

/-- Model of `frontMatter.match(/key:\s*"([^"]+)"/)` for a literal `key`
(src/App.tsx lines 27-29): leftmost match, group 1. -/
def matchKeyQuoted (key : List Char) : List Char → Option (List Char)
  | [] => keyQuotedHere key []
  | c :: rest =>
    match keyQuotedHere key (c :: rest) with
    | some g => some g
    | none => matchKeyQuoted key rest

/-- Literal key of the type-field regex (src/App.tsx line 27). -/
def KEY_TYPE : List Char := "type:".toList

/-- Literal key of the title-field regex (src/App.tsx line 28). -/
def KEY_TITLE : List Char := "title:".toList

/-- Literal key of the icon-field regex (src/App.tsx line 29). -/
def KEY_ICON : List Char := "icon:".toList

/-- Feature record produced by the parsers (src/types.ts `ParsedFeature`). -/
structure ParsedFeature where
  type : String
  title : String
  icon : String
  content : String
  raw : String
deriving DecidableEq, Repr

/-- Fallback record used only as the default of `Option.getD` in statements;
never produced by the parser itself. -/
def defaultFeature : ParsedFeature :=
  { type := "", title := "", icon := "", content := "", raw := "" }

/-- The body of the `parts.forEach` loop of `parseLegacyContent`
(src/App.tsx lines 18-41): `none` when the segment is skipped. -/
def segmentFeature (part : List Char) : Option ParsedFeature :=
  if (jsTrim part).isEmpty then none
  else
    match frontMatterMatch part with
    | none => none
    | some (whole, frontMatter) =>
      match matchKeyQuoted KEY_TITLE frontMatter with
      | none => none
      | some title =>
        some { type := String.mk ((matchKeyQuoted KEY_TYPE frontMatter).getD "unknown".toList)
             , title := String.mk title
             , icon := String.mk ((matchKeyQuoted KEY_ICON frontMatter).getD "file".toList)
             , content := String.mk (jsTrim (removeFirst whole part))
             , raw := String.mk part }

/-- Model of `parseLegacyContent` (src/App.tsx lines 14-44). -/
def parseLegacyContent (text : String) : List ParsedFeature :=
  (splitSegments text.toList).filterMap segmentFeature

/-- A segment is well-formed when its trim is non-empty, it carries a
front-matter block, and the front matter has a quoted `title` field (the
spec's conditions for producing a record). -/
def isWellFormedSegment (part : List Char) : Bool :=
  !(jsTrim part).isEmpty &&
    (match frontMatterMatch part with
     | none => false
     | some (_, frontMatter) => (matchKeyQuoted KEY_TITLE frontMatter).isSome)

/-- The concrete input of end-to-end scenario 1. -/
def scenario1Input : String :=
  "--- START OF FILE text/plain ---\n---\ntype: \"Core\"\ntitle: \"Login\"\nicon: \"User\"\n---\nUsers can log in.\n"

/-- Technology stack selection (src/types.ts `TechStack`, three-field
variant used by src/App.tsx). -/
structure TechStack where
  language : String
  frontendFramework : String
  backendFramework : String
deriving DecidableEq, Repr

/-- Scaffold shape returned by `generateCodeScaffold`
(src/types.ts `CodeScaffold`, three-blob variant used by
src/services/geminiService.ts). -/
structure CodeScaffold where
  backend : String
  frontend : String
  readme : String
deriving DecidableEq, Repr

/-- One generated source file (src/types.ts `ProjectFile`). -/
structure ProjectFile where
  path : String
  content : String
  language : String
deriving DecidableEq, Repr

/-- Scaffold shape consumed by `CodePreview` (src/types.ts `CodeScaffold`,
files/readme/demoHtml variant). -/
structure CodeScaffoldFiles where
  files : List ProjectFile
  readme : String
  demoHtml : String
deriving DecidableEq, Repr

/-- Pipeline status (src/types.ts `AnalysisStatus`). -/
inductive AnalysisStatus where
  | IDLE
  | ANALYZING
  | GENERATING_CODE
  | COMPLETE
  | ERROR
deriving DecidableEq, Repr

/-- View selector of the right-hand panel (src/App.tsx line 59). -/
inductive ViewMode where
  | chat
  | code
  | demo
deriving DecidableEq, Repr

/-- The controller's React state (src/App.tsx lines 51-59).  The chat
session object is opaque; only its presence matters to the claims. -/
structure AppState where
  features : List ParsedFeature
  techStack : TechStack
  analysis : String
  status : AnalysisStatus
  chatSession : Option Unit
  codeScaffold : Option CodeScaffold
  isParsing : Bool
  parseError : Option String
  viewMode : ViewMode
deriving DecidableEq, Repr

/-- Synchronous entry of `handleFileUpload` (src/App.tsx lines 64-75):
with no file selected it returns immediately, otherwise it resets the
per-upload state before dispatching on the file format. -/
def handleFileUploadStart (st : AppState) (fileSelected : Bool) : AppState :=
  if fileSelected then
    { st with isParsing := true
            , parseError := none
            , features := []
            , status := .IDLE
            , analysis := ""
            , chatSession := none
            , codeScaffold := none
            , viewMode := .chat }
  else st

/-- PDF load continuation (src/App.tsx lines 84-98).  `gateway` is the
outcome of the one `parseDocumentWithGemini` call (`.error` for a thrown
failure); the second component counts the gateway calls made. -/
def pdfOnLoad (st : AppState) (gateway : Except String (List ParsedFeature)) :
    AppState × Nat :=
  match gateway with
  | .ok parsed =>
    if parsed.length = 0 then
      ({ st with parseError := some "Failed to analyze PDF content. Ensure the file is text-readable."
               , isParsing := false }, 1)
    else ({ st with features := parsed, isParsing := false }, 1)
  | .error _ =>
    ({ st with parseError := some "Failed to analyze PDF content. Ensure the file is text-readable."
             , isParsing := false }, 1)

/-- DOCX load continuation (src/App.tsx lines 111-134).  `extraction` is
the outcome of the mammoth raw-text extraction, `gateway` the outcome of
`parseDocumentWithGemini` were it called; the second component counts the
gateway calls made. -/
def docxOnLoad (st : AppState) (extraction : Except String String)
    (gateway : Except String (List ParsedFeature)) : AppState × Nat :=
  match extraction with
  | .error _ =>
    ({ st with parseError := some "Failed to analyze Word document."
             , isParsing := false }, 0)
  | .ok text =>
    if (jsTrim text.toList).isEmpty then
      ({ st with parseError := some "Failed to analyze Word document."
               , isParsing := false }, 0)
    else
      match gateway with
      | .ok parsed => ({ st with features := parsed, isParsing := false }, 1)
      | .error _ =>
        ({ st with parseError := some "Failed to analyze Word document."
                 , isParsing := false }, 1)

/-- Text/markdown load continuation (src/App.tsx lines 145-166): the legacy
parser runs first; the gateway is consulted only when it finds nothing and
the text is non-blank.  The second component counts the gateway calls. -/
def textOnLoad (st : AppState) (text : String)
    (gateway : Except String (List ParsedFeature)) : AppState × Nat :=
  let parsed := parseLegacyContent text
  if parsed.length = 0 && (jsTrim text.toList).length > 0 then
    match gateway with
    | .ok parsed2 =>
      if parsed2.length = 0 then
        ({ st with parseError := some "No features detected in the file. Is it empty?"
                 , isParsing := false }, 1)
      else ({ st with features := parsed2, isParsing := false }, 1)
    | .error _ =>
      ({ st with parseError := some "Failed to parse text file."
               , isParsing := false }, 1)
  else
    if parsed.length = 0 then
      ({ st with parseError := some "No features detected in the file. Is it empty?"
               , isParsing := false }, 0)
    else ({ st with features := parsed, isParsing := false }, 0)

/-- The guard of the `runAnalysis` effect (src/App.tsx line 189): features
present, all three stack fields truthy, and no parse in progress. -/
def runAnalysisGuard (st : AppState) : Bool :=
  st.features.length > 0
    && st.techStack.language != ""
    && st.techStack.frontendFramework != ""
    && st.techStack.backendFramework != ""
    && !st.isParsing

/-- Synchronous entry of `runAnalysis` (src/App.tsx lines 188-206): when the
guard holds the status becomes ANALYZING and `analyzeRequirementsFast` is
invoked (second component `true`); otherwise nothing happens. -/
def runAnalysisStep (st : AppState) : AppState × Bool :=
  if runAnalysisGuard st then ({ st with status := .ANALYZING }, true)
  else (st, false)

/-- Continuation of `runAnalysis` (src/App.tsx lines 193-204): on success
the analysis text and chat session are installed and the status becomes
COMPLETE; a thrown failure yields ERROR. -/
def runAnalysisFinish (st : AppState) (result : Except String String) : AppState :=
  match result with
  | .ok text =>
    { st with analysis := text, chatSession := some (), status := .COMPLETE }
  | .error _ => { st with status := .ERROR }

/-- Synchronous entry of `handleGenerateCode` (src/App.tsx lines 211-214):
the early return fires only when the status is neither COMPLETE nor
GENERATING_CODE; otherwise the status becomes GENERATING_CODE and
`generateCodeScaffold` is invoked (second component `true`). -/
def handleGenerateCodeStart (st : AppState) : AppState × Bool :=
  if st.status != .COMPLETE && st.status != .GENERATING_CODE then (st, false)
  else ({ st with status := .GENERATING_CODE }, true)

/-- Continuation of `handleGenerateCode` (src/App.tsx lines 215-223): on a
resolved scaffold it is installed, the view switches to the demo and the
status returns to COMPLETE; on a thrown failure the status also returns to
COMPLETE. -/
def handleGenerateCodeFinish (st : AppState) (result : Except String CodeScaffold) :
    AppState :=
  match result with
  | .ok scaffold =>
    { st with codeScaffold := some scaffold, viewMode := .demo, status := .COMPLETE }
  | .error _ => { st with status := .COMPLETE }

/-- The degraded scaffold returned on a JSON parse failure
(src/services/geminiService.ts lines 195-199). -/
def degradedScaffold : CodeScaffold :=
  { backend := "Error parsing backend code."
  , frontend := "Error parsing frontend code."
  , readme := "Error parsing readme." }

/-- Response handling of `generateCodeScaffold`
(src/services/geminiService.ts lines 188-200).  `jsonParse` stands for the
host `JSON.parse` checked against the declared schema (`none` = not valid
JSON for the schema); `responseText` is `response.text` (`none` or the empty
string are falsy and throw). -/
def generateCodeScaffoldResult (jsonParse : String → Option CodeScaffold)
    (responseText : Option String) : Except String CodeScaffold :=
  match responseText with
  | none => .error "No code generated"
  | some text =>
    if text = "" then .error "No code generated"
    else
      match jsonParse text with
      | some scaffold => .ok scaffold
      | none => .ok degradedScaffold

/-- ASCII model of `String.prototype.toLowerCase` (paths are ASCII). -/
def jsLower (s : String) : String := String.mk (s.toList.map Char.toLower)

/-- The README file `CodePreview` synthesizes when the scaffold has no
readme.md entry (src/components/CodePreview.tsx lines 35-39). -/
def virtualReadme (sc : CodeScaffoldFiles) : ProjectFile :=
  { path := "README.md", content := sc.readme, language := "markdown" }

/-- The `allFiles` memo of `CodePreview` (src/components/CodePreview.tsx
lines 31-42): copy the scaffold's files, prepend a virtual README when no
file has path readme.md case-insensitively, then sort by path.  `le` stands
for the host `localeCompare` ordering. -/
def allFiles (le : ProjectFile → ProjectFile → Bool) (sc : CodeScaffoldFiles) :
    List ProjectFile :=
  let files := sc.files
  let files :=
    if (files.find? (fun f => jsLower f.path == "readme.md")).isSome then files
    else virtualReadme sc :: files
  files.mergeSort le

/-- Root directory of a path (src/components/CodePreview.tsx line 57). -/
def rootOf (f : ProjectFile) : String := (f.path.splitOn "/").headD ""

/-- Append a file to its root's group, keeping first-insertion key order
(the JS object used on lines 55-60 preserves string-key insertion order). -/
def addToTree (t : List (String × List ProjectFile)) (root : String)
    (f : ProjectFile) : List (String × List ProjectFile) :=
  match t with
  | [] => [(root, [f])]
  | (r, fs) :: rest =>
    if r == root then (r, fs ++ [f]) :: rest
    else (r, fs) :: addToTree rest root f

/-- The `fileTree` memo of `CodePreview` (src/components/CodePreview.tsx
lines 54-62): group `allFiles` by root directory. -/
def fileTree (files : List ProjectFile) : List (String × List ProjectFile) :=
  files.foldl (fun t f => addToTree t (rootOf f) f) []

/-- Sample feature used by concrete witnesses. -/
def sampleFeature : ParsedFeature :=
  { type := "Core", title := "Login", icon := "User"
  , content := "Users can log in.", raw := "" }

/-- Sample fully populated stack used by concrete witnesses. -/
def sampleStack : TechStack :=
  { language := "Go", frontendFramework := "React", backendFramework := "Gin (Go)" }

/-- Sample state with one feature and a full stack, no parse in progress. -/
def sampleReadyState : AppState :=
  { features := [sampleFeature], techStack := sampleStack, analysis := ""
  , status := .IDLE, chatSession := none, codeScaffold := none
  , isParsing := false, parseError := none, viewMode := .chat }

/-- Sample state after a finished analysis. -/
def sampleCompleteState : AppState :=
  { sampleReadyState with analysis := "ok", status := .COMPLETE
                        , chatSession := some () }

/-- Sample state while scaffold generation is in flight. -/
def sampleGeneratingState : AppState :=
  { sampleCompleteState with status := .GENERATING_CODE }

/- ------------------------------------------------------------------ -/
/- Helper lemmas                                                      -/
/- ------------------------------------------------------------------ -/

/-- `filterMap` is the `map` of the defaulted extraction over the kept
elements. -/
theorem filterMap_eq_map_filter {α β : Type} (f : α → Option β) (d : β)
    (l : List α) :
    l.filterMap f
      = (l.filter (fun a => (f a).isSome)).map (fun a => (f a).getD d) := by
  induction l with
  | nil => rfl
  | cons a l ih =>
    cases h : f a <;>
      simp [List.filterMap_cons, List.filter_cons, h, ih]

/-- A segment yields a record exactly when it is well formed. -/
theorem segmentFeature_isSome (p : List Char) :
    (segmentFeature p).isSome = isWellFormedSegment p := by
  unfold segmentFeature isWellFormedSegment
  cases hemp : (jsTrim p).isEmpty
  · cases hfm : frontMatterMatch p with
    | none => simp
    | some r =>
      obtain ⟨w, fm⟩ := r
      cases ht : matchKeyQuoted KEY_TITLE fm <;> simp [ht]
  · simp

/-- An accepted quoted group is non-empty. -/
theorem quotedGroup_ne_nil (afterQuote g : List Char)
    (h : quotedGroup afterQuote = some g) : g ≠ [] := by
  unfold quotedGroup at h
  by_cases hemp : ((afterQuote.takeWhile (fun c => c ≠ '"')).isEmpty) = true
  · rw [if_pos hemp] at h
    exact absurd h (by simp)
  · rw [if_neg hemp] at h
    split at h
    · injection h with hgg
      subst hgg
      intro hnil
      exact hemp (List.isEmpty_iff.mpr hnil)
    · exact absurd h (by simp)

/-- A quoted field group accepted at one position is non-empty. -/
theorem keyQuotedHere_ne_nil (key l g : List Char)
    (h : keyQuotedHere key l = some g) : g ≠ [] := by
  unfold keyQuotedHere at h
  split at h
  · split at h
    · rename_i afterQuote heq
      exact quotedGroup_ne_nil _ g h
    · exact absurd h (by simp)
  · exact absurd h (by simp)

/-- A matched quoted field group is non-empty. -/
theorem matchKeyQuoted_ne_nil (key : List Char) :
    ∀ l g, matchKeyQuoted key l = some g → g ≠ [] := by
  intro l
  induction l with
  | nil =>
    intro g h
    exact keyQuotedHere_ne_nil key [] g h
  | cons c rest ih =>
    intro g h
    unfold matchKeyQuoted at h
    cases hh : keyQuotedHere key (c :: rest) with
    | some g0 =>
      rw [hh] at h
      injection h with hgg
      subst hgg
      exact keyQuotedHere_ne_nil key (c :: rest) _ hh
    | none =>
      rw [hh] at h
      exact ih g h

/-- A non-empty character list makes a non-empty string. -/
theorem stringMk_ne_empty (g : List Char) (h : g ≠ []) : String.mk g ≠ "" := by
  intro he
  exact h (congrArg String.data he)

/-- `find?` succeeds exactly when `any` holds. -/
theorem find?_isSome_eq_any {α : Type} (p : α → Bool) (l : List α) :
    (l.find? p).isSome = l.any p := by
  induction l with
  | nil => rfl
  | cons a l ih =>
    by_cases h : p a <;> simp [List.find?_cons, h, ih]

/-- Membership in the flattened tree after adding one file to a group. -/
theorem mem_flat_addToTree (t : List (String × List ProjectFile)) (root : String)
    (g f : ProjectFile) :
    f ∈ (addToTree t root g).flatMap (fun p => p.2)
      ↔ f ∈ t.flatMap (fun p => p.2) ∨ f = g := by
  induction t with
  | nil => simp [addToTree]
  | cons a rest ih =>
    obtain ⟨r, fs⟩ := a
    by_cases h : (r == root) = true
    · simp only [addToTree]
      rw [if_pos h]
      simp only [List.flatMap_cons, List.mem_append, List.mem_singleton]
      tauto
    · simp only [addToTree]
      rw [if_neg h]
      simp only [List.flatMap_cons, List.mem_append, ih]
      tauto

/-- Membership in the flattened tree built by the grouping fold. -/
theorem mem_fileTree_fold (l : List ProjectFile) (f : ProjectFile) :
    ∀ t : List (String × List ProjectFile),
      f ∈ (l.foldl (fun t g => addToTree t (rootOf g) g) t).flatMap (fun p => p.2)
        ↔ f ∈ t.flatMap (fun p => p.2) ∨ f ∈ l := by
  induction l with
  | nil => intro t; simp
  | cons a l ih =>
    intro t
    rw [List.foldl_cons, ih, mem_flat_addToTree]
    simp only [List.mem_cons]
    tauto

/- ------------------------------------------------------------------ -/
/- Claim theorems                                                     -/
/- ------------------------------------------------------------------ -/

/-- Claim C1: for every legacy-format input, the Legacy Content Parser
returns one record per well-formed segment (non-blank trim, front-matter
block present, quoted title present), in document order; a segment whose
front matter lacks a title, or that has no front-matter block at all, is
excluded; the empty document yields the empty sequence; and on the concrete
input of scenario 1 it returns exactly one record with type Core, title
Login, icon User, and content Users can log in. -/
theorem parseLegacyContent_segments (text : String) :
    parseLegacyContent text
      = ((splitSegments text.toList).filter isWellFormedSegment).map
          (fun p => (segmentFeature p).getD defaultFeature)
  ∧ parseLegacyContent "" = []
  ∧ (parseLegacyContent scenario1Input).map
        (fun f => (f.type, f.title, f.icon, f.content))
      = [("Core", "Login", "User", "Users can log in.")] := by
  refine ⟨?_, by decide, by decide⟩
  unfold parseLegacyContent
  rw [filterMap_eq_map_filter segmentFeature defaultFeature]
  have hfun : (fun a => (segmentFeature a).isSome) = isWellFormedSegment :=
    funext segmentFeature_isSome
  rw [hfun]

/-- Claim C4: the analysis gateway call fires only when the feature
sequence is non-empty, all three stack fields are non-empty, and no parse
is in progress. -/
theorem runAnalysis_guard_only_when_ready (st : AppState)
    (h : (runAnalysisStep st).2 = true) :
    st.features ≠ []
  ∧ st.techStack.language ≠ ""
  ∧ st.techStack.frontendFramework ≠ ""
  ∧ st.techStack.backendFramework ≠ ""
  ∧ st.isParsing = false := by
  by_cases hg : runAnalysisGuard st = true
  · have hg2 := hg
    unfold runAnalysisGuard at hg2
    simp only [Bool.and_eq_true, bne_iff_ne, ne_eq, Bool.not_eq_true',
      decide_eq_true_eq] at hg2
    obtain ⟨⟨⟨⟨hlen, hl⟩, hf⟩, hb⟩, hp⟩ := hg2
    exact ⟨List.length_pos.mp hlen, hl, hf, hb, hp⟩
  · exfalso
    unfold runAnalysisStep at h
    rw [if_neg hg] at h
    exact Bool.false_ne_true h

/-- Witness for C4: a state with one feature, a full stack, and no parse in
progress passes the guard, and the theorem's conclusions hold there. -/
theorem runAnalysis_guard_only_when_ready_witness :
    sampleReadyState.features ≠ []
  ∧ sampleReadyState.techStack.language ≠ ""
  ∧ sampleReadyState.techStack.frontendFramework ≠ ""
  ∧ sampleReadyState.techStack.backendFramework ≠ ""
  ∧ sampleReadyState.isParsing = false :=
  runAnalysis_guard_only_when_ready sampleReadyState (by decide)

/-- Claim C5: a word-processor upload whose extracted text is blank or
whitespace-only sets a user-visible parse error and never calls the
Feature Extraction Gateway. -/
theorem docx_blank_no_gateway (st : AppState) (text : String)
    (gateway : Except String (List ParsedFeature))
    (hblank : jsTrim text.toList = []) :
    docxOnLoad st (Except.ok text) gateway
      = ({ st with parseError := some "Failed to analyze Word document."
                 , isParsing := false }, 0) := by
  have hb2 : jsTrim text.data = [] := hblank
  simp [docxOnLoad, hb2]

/-- Witness for C5: a whitespace-only extraction yields the error state and
zero gateway calls. -/
theorem docx_blank_no_gateway_witness :
    docxOnLoad sampleReadyState (Except.ok "  \n ") (Except.ok [sampleFeature])
      = ({ sampleReadyState with
             parseError := some "Failed to analyze Word document."
           , isParsing := false }, 0) :=
  docx_blank_no_gateway sampleReadyState "  \n " (Except.ok [sampleFeature])
    (by decide)

/-- Claim C6: on a plain-text upload, when the legacy parser finds nothing
and the text is non-blank the Feature Extraction Gateway is called exactly
once; when the legacy parser finds at least one record the gateway is not
called at all. -/
theorem text_gateway_exactly_once (st : AppState) (text : String)
    (gateway : Except String (List ParsedFeature)) :
    (parseLegacyContent text = [] → jsTrim text.toList ≠ [] →
        (textOnLoad st text gateway).2 = 1)
  ∧ (parseLegacyContent text ≠ [] → (textOnLoad st text gateway).2 = 0) := by
  constructor
  · intro h0 hne
    have hlen : 0 < (jsTrim text.data).length := List.length_pos.mpr hne
    cases gateway with
    | ok parsed2 =>
      by_cases h2 : parsed2.length = 0 <;>
        simp [textOnLoad, h0, hlen, h2]
    | error e => simp [textOnLoad, h0, hlen]
  · intro h0
    have hlen : ¬((parseLegacyContent text).length = 0) := fun hh =>
      h0 (List.length_eq_zero.mp hh)
    simp [textOnLoad, hlen]

/-- Witness for C6: unstructured non-blank text routes to the gateway once;
legacy-format text routes past it. -/
theorem text_gateway_exactly_once_witness :
    (textOnLoad sampleReadyState "hello requirements"
        (Except.ok [sampleFeature])).2 = 1
  ∧ (textOnLoad sampleReadyState scenario1Input (Except.ok [])).2 = 0 :=
  ⟨(text_gateway_exactly_once sampleReadyState "hello requirements"
      (Except.ok [sampleFeature])).1 (by decide) (by decide),
   (text_gateway_exactly_once sampleReadyState scenario1Input
      (Except.ok [])).2 (by decide)⟩

/-- Claim C7: starting a new upload resets the feature sequence, the
analysis text, the chat session, and the scaffold, and sets the status back
to IDLE, whatever the previous state was. -/
theorem upload_resets_pipeline (st : AppState) :
    (handleFileUploadStart st true).features = []
  ∧ (handleFileUploadStart st true).analysis = ""
  ∧ (handleFileUploadStart st true).chatSession = none
  ∧ (handleFileUploadStart st true).codeScaffold = none
  ∧ (handleFileUploadStart st true).status = AnalysisStatus.IDLE := by
  simp [handleFileUploadStart]

/-- Claim C2 (counterexample): starting from a COMPLETE state, a first
invocation of handleGenerateCode leaves the status at GENERATING_CODE, and
a second invocation in immediate succession still passes the guard and
issues a second generateCodeScaffold call — the guard does not prevent
re-entry while generating_code. -/
theorem handleGenerateCode_reentry_refuted :
    (handleGenerateCodeStart sampleCompleteState).1.status
        = AnalysisStatus.GENERATING_CODE
  ∧ (handleGenerateCodeStart sampleCompleteState).2 = true
  ∧ (handleGenerateCodeStart
        (handleGenerateCodeStart sampleCompleteState).1).2 = true := by
  decide

/-- Claim C2 (amended): the early-return guard blocks a generation request
exactly when the status is neither COMPLETE nor GENERATING_CODE; an
invocation while already GENERATING_CODE passes the guard, so two
invocations in immediate succession issue two generateCodeScaffold
calls. -/
theorem handleGenerateCode_guard_amended (st : AppState) :
    ((handleGenerateCodeStart st).2 = true
        ↔ (st.status = AnalysisStatus.COMPLETE
            ∨ st.status = AnalysisStatus.GENERATING_CODE))
  ∧ (st.status = AnalysisStatus.GENERATING_CODE →
      (handleGenerateCodeStart st).2 = true
    ∧ (handleGenerateCodeStart (handleGenerateCodeStart st).1).2 = true) := by
  cases hs : st.status <;> simp [handleGenerateCodeStart, hs]

/-- Witness for the amended C2: while generating_code, both the first and
the immediately following invocation issue a request. -/
theorem handleGenerateCode_guard_amended_witness :
    (handleGenerateCodeStart sampleGeneratingState).2 = true
  ∧ (handleGenerateCodeStart
        (handleGenerateCodeStart sampleGeneratingState).1).2 = true :=
  (handleGenerateCode_guard_amended sampleGeneratingState).2 (by decide)

/-- Claim C3: when the remote response text is not valid JSON for the
declared schema, generateCodeScaffold resolves with the degraded scaffold
(error text in every field) instead of throwing, and after the run the
controller's status is COMPLETE with the degraded scaffold installed. -/
theorem generateCodeScaffold_degrades_on_bad_json (st : AppState)
    (jsonParse : String → Option CodeScaffold) (text : String)
    (_hrun : st.status = AnalysisStatus.COMPLETE
          ∨ st.status = AnalysisStatus.GENERATING_CODE)
    (htext : text ≠ "") (hbad : jsonParse text = none) :
    generateCodeScaffoldResult jsonParse (some text) = Except.ok degradedScaffold
  ∧ (handleGenerateCodeFinish (handleGenerateCodeStart st).1
        (generateCodeScaffoldResult jsonParse (some text))).status
      = AnalysisStatus.COMPLETE
  ∧ (handleGenerateCodeFinish (handleGenerateCodeStart st).1
        (generateCodeScaffoldResult jsonParse (some text))).codeScaffold
      = some degradedScaffold := by
  have h1 : generateCodeScaffoldResult jsonParse (some text)
      = Except.ok degradedScaffold := by
    simp only [generateCodeScaffoldResult]
    rw [if_neg htext, hbad]
  refine ⟨h1, ?_, ?_⟩ <;> rw [h1] <;> simp [handleGenerateCodeFinish]

/-- Witness for C3: a concrete run from COMPLETE with an unparsable
response text ends COMPLETE with the degraded scaffold. -/
theorem generateCodeScaffold_degrades_on_bad_json_witness :
    generateCodeScaffoldResult (fun _ => none) (some "not json")
        = Except.ok degradedScaffold
  ∧ (handleGenerateCodeFinish (handleGenerateCodeStart sampleCompleteState).1
        (generateCodeScaffoldResult (fun _ => none) (some "not json"))).status
      = AnalysisStatus.COMPLETE
  ∧ (handleGenerateCodeFinish (handleGenerateCodeStart sampleCompleteState).1
        (generateCodeScaffoldResult (fun _ => none) (some "not json"))).codeScaffold
      = some degradedScaffold :=
  generateCodeScaffold_degrades_on_bad_json sampleCompleteState (fun _ => none)
    "not json" (Or.inl (by decide)) (by decide) rfl

/-- Claim C8: the file list CodePreview renders is, up to the sort order, the
scaffold's files unchanged — with the virtual README.md carrying the
scaffold's readme prepended exactly when no file has path readme.md
case-insensitively — and the grouped file tree contains exactly those
files. -/
theorem codePreview_file_tree_roundtrip (le : ProjectFile → ProjectFile → Bool)
    (sc : CodeScaffoldFiles) :
    List.Perm (allFiles le sc)
      (if sc.files.any (fun f => jsLower f.path == "readme.md") then sc.files
       else virtualReadme sc :: sc.files)
  ∧ ∀ f : ProjectFile,
      ((∃ p ∈ fileTree (allFiles le sc), f ∈ p.2) ↔ f ∈ allFiles le sc) := by
  constructor
  · simp only [allFiles]
    rw [find?_isSome_eq_any]
    exact List.mergeSort_perm _ le
  · intro f
    have h2 := mem_fileTree_fold (allFiles le sc) f []
    constructor
    · intro hex
      rcases h2.mp (List.mem_flatMap.mpr hex) with h | h
      · simp at h
      · exact h
    · intro hf
      exact List.mem_flatMap.mp (h2.mpr (Or.inr hf))

/-- Sample segment for the C9 witness: front matter with a title only. -/
def c9Part : List Char := "\n---\ntitle: \"T\"\n---\nbody here".toList

/-- The record the legacy parser recovers from the C9 sample segment. -/
def c9Record : ParsedFeature :=
  { type := "unknown", title := "T", icon := "file"
  , content := "body here", raw := "\n---\ntitle: \"T\"\n---\nbody here" }

/-- Claim C9: every record produced from a titled segment has a non-empty
type and a non-empty icon; when the front matter has no matching type field
the type is the string unknown, when it has no matching icon field the icon
is the string file; the raw field is always the whole segment text. -/
theorem legacy_record_defaults (p : List Char) (r : ParsedFeature)
    (h : segmentFeature p = some r) :
    r.raw = String.mk p
  ∧ r.type ≠ ""
  ∧ r.icon ≠ ""
  ∧ ∀ w fm, frontMatterMatch p = some (w, fm) →
      ((matchKeyQuoted KEY_TYPE fm = none → r.type = "unknown")
     ∧ (matchKeyQuoted KEY_ICON fm = none → r.icon = "file")) := by
  unfold segmentFeature at h
  by_cases hemp : ((jsTrim p).isEmpty) = true
  · rw [if_pos hemp] at h
    exact absurd h (by simp)
  · rw [if_neg hemp] at h
    split at h
    next => exact absurd h (by simp)
    next w0 fm0 hfm =>
      split at h
      next => exact absurd h (by simp)
      next title ht =>
        injection h with hr
        subst hr
        refine ⟨rfl, ?_, ?_, ?_⟩
        · show String.mk ((matchKeyQuoted KEY_TYPE fm0).getD "unknown".toList) ≠ ""
          cases hty : matchKeyQuoted KEY_TYPE fm0 with
          | none => decide
          | some g =>
            exact stringMk_ne_empty g (matchKeyQuoted_ne_nil KEY_TYPE fm0 g hty)
        · show String.mk ((matchKeyQuoted KEY_ICON fm0).getD "file".toList) ≠ ""
          cases hic : matchKeyQuoted KEY_ICON fm0 with
          | none => decide
          | some g =>
            exact stringMk_ne_empty g (matchKeyQuoted_ne_nil KEY_ICON fm0 g hic)
        · intro w fm hwfm
          rw [hfm] at hwfm
          injection hwfm with hpair
          cases hpair
          constructor
          · intro hty
            show String.mk ((matchKeyQuoted KEY_TYPE fm0).getD "unknown".toList)
                = "unknown"
            rw [hty, Option.getD_none]
            decide
          · intro hic
            show String.mk ((matchKeyQuoted KEY_ICON fm0).getD "file".toList)
                = "file"
            rw [hic, Option.getD_none]
            decide

/-- Witness for C9: on a titled segment with no type and no icon field, the
produced record carries the defaults unknown and file, non-empty, with raw
equal to the segment. -/
theorem legacy_record_defaults_witness :
    c9Record.raw = String.mk c9Part
  ∧ c9Record.type ≠ ""
  ∧ c9Record.icon ≠ ""
  ∧ c9Record.type = "unknown"
  ∧ c9Record.icon = "file" := by
  have h := legacy_record_defaults c9Part c9Record (by decide)
  have h4 := h.2.2.2 (String.toList "---\ntitle: \"T\"\n---")
    (String.toList "title: \"T\"") (by decide)
  exact ⟨h.1, h.2.1, h.2.2.1, h4.1 (by decide), h4.2 (by decide)⟩

/-- Claim C10: with non-blank extracted text, a zero-length gateway result
on the DOCX path silently installs an empty feature sequence — no
user-visible error, status unchanged, no analysis trigger — while on the
PDF path the same zero-length result sets a user-visible error message. -/
theorem docx_pdf_zero_result_asymmetry (st : AppState) (text : String)
    (hblank : jsTrim text.toList ≠ []) (herr : st.parseError = none) :
    (docxOnLoad st (Except.ok text) (Except.ok [])).1.features = []
  ∧ (docxOnLoad st (Except.ok text) (Except.ok [])).1.parseError = none
  ∧ (docxOnLoad st (Except.ok text) (Except.ok [])).1.status = st.status
  ∧ (docxOnLoad st (Except.ok text) (Except.ok [])).2 = 1
  ∧ (runAnalysisStep (docxOnLoad st (Except.ok text) (Except.ok [])).1).2 = false
  ∧ (pdfOnLoad st (Except.ok [])).1.parseError
      = some "Failed to analyze PDF content. Ensure the file is text-readable." := by
  have hb2 : ¬(jsTrim text.data = []) := hblank
  have hie : (jsTrim text.data).isEmpty = false := by
    cases hb : (jsTrim text.data).isEmpty
    · rfl
    · exact absurd (List.isEmpty_iff.mp hb) hb2
  simp [docxOnLoad, hie, runAnalysisStep, runAnalysisGuard, pdfOnLoad, herr]

/-- Witness for C10: a concrete non-blank DOCX extraction with an empty
gateway result against the PDF path's behavior. -/
theorem docx_pdf_zero_result_asymmetry_witness :
    (docxOnLoad sampleReadyState (Except.ok "Requirements") (Except.ok [])).1.features = []
  ∧ (docxOnLoad sampleReadyState (Except.ok "Requirements") (Except.ok [])).1.parseError = none
  ∧ (docxOnLoad sampleReadyState (Except.ok "Requirements") (Except.ok [])).1.status
      = sampleReadyState.status
  ∧ (docxOnLoad sampleReadyState (Except.ok "Requirements") (Except.ok [])).2 = 1
  ∧ (runAnalysisStep
        (docxOnLoad sampleReadyState (Except.ok "Requirements") (Except.ok [])).1).2 = false
  ∧ (pdfOnLoad sampleReadyState (Except.ok [])).1.parseError
      = some "Failed to analyze PDF content. Ensure the file is text-readable." :=
  docx_pdf_zero_result_asymmetry sampleReadyState "Requirements"
    (by decide) (by decide)

end DevStack
